import Mathlib

/-!
# Verification of the worker-tools router dispatch engine

Shallow embedding of `src/index.ts` (the `WorkerRouter` class: route table,
first-match pattern resolution, middleware composition, two-phase
normal/recovery dispatch, nested-router delegation).

Modelling conventions:
* `Awaitable<T>` / promises are flattened to settled values: a computation that
  can reject is `Except Thrown α`.  Sequencing of `await` is monadic `bind`.
* The external collaborators (URL pattern matcher, side-effect applier,
  `new URL` resolution, pattern construction from a path or init) are opaque
  function parameters bundled in a `Host` structure; the spec treats them as
  black boxes satisfying only their consumed interface.
* Thrown JavaScript values are the inductive `Thrown`; the `instanceof
  Response` test used by the dispatcher corresponds to the `Thrown.resp`
  constructor.
* The per-dispatch completion signal (`handledResolver`) is modelled by the
  Boolean `handledResolved` of `RouteOutcome`: it records whether
  `handledResolver.resolve(...)` was executed during the dispatch.
  Diagnostic notifications (`#fireError`) are collected in `fired`.
* `Object.assign(ctx, patch)` updates the single per-dispatch context object in
  place.  The value of that object is threaded through `route`; for the frame
  claim about object identity a small object-heap model (`readObj`, `writeObj`,
  `allocObj`) makes the in-place writes and the fresh allocation performed by
  `handle` explicit.
-/

/-- Fetch-API `Response` values, reduced to the observable data the router
inspects or synthesizes (`response-creators` is an external collaborator). -/
structure Response where
  status : Nat
  statusText : String
deriving DecidableEq, Repr

/-- The `notFound()` from the response-creators package. -/
def notFound : Response := ⟨404, "Not Found"⟩

/-- The `internalServerError()` from the response-creators package. -/
def internalServerError : Response := ⟨500, "Internal Server Error"⟩

/-- A thrown JavaScript value, as the dispatcher classifies it:
a `Response` (the well-known signal), a `TypeError`, an `AggregateError`
(from `utils/aggregate-error.ts`, holding both failures), or any other
error value (represented by a message string). -/
inductive Thrown where
  | resp (r : Response)
  | err (msg : String)
  | typeError (msg : String)
  | aggregate (e1 e2 : Thrown) (msg : String)
deriving DecidableEq, Repr

/-- The `err instanceof Response` test. -/
def Thrown.isResponse : Thrown → Bool
  | .resp _ => true
  | _ => false

/-- One component of a URL-pattern match result: the raw matched input and the
ordered capture groups (`Object.values` iterates them in insertion order). -/
structure URLPatternComponentResult where
  input : String
  groups : List (String × String)

/-- Result of `URLPattern.exec`; only the `pathname` component is read by the
router (`#routeHandler`). -/
structure URLPatternResult where
  pathname : URLPatternComponentResult

/-- The external URL-pattern primitive: a compiled matcher over full URLs. -/
structure URLPattern where
  exec : String → Option URLPatternResult

/-- The part of a Fetch-API `Request` the router reads. -/
structure Request where
  url : String
  method : String

/-- A deferred response mutation collected in the `EffectsList`. -/
def Effect := Response → Response

/-- The context object threaded through a dispatch.  Open/extensible
capabilities added by user middleware are outside the dispatcher and are not
modelled; the fields below are the ones the dispatcher itself reads or
assigns.  The `handled` promise stored on the context is modelled by the
`handledResolved` flag of `RouteOutcome` instead. -/
structure Ctx where
  request : Request
  matchR : Option URLPatternResult := none
  response? : Option Response := none
  error? : Option Thrown := none
  effects : List Effect := []

instance : Inhabited Ctx := ⟨{ request := ⟨"", ""⟩ }⟩

/-- A base/route middleware: takes an awaitable context, returns an awaitable
(possibly richer) context.  Rejection = `Except.error`. -/
def MwBase := Except Thrown Ctx → Except Thrown Ctx

/-- A user handler `(request, ctx) => Awaitable<Response>`. -/
def HandlerFn := Request → Ctx → Except Thrown Response

/-- A compiled route handler as stored in the route table. -/
def CompiledHandler := Ctx → Except Thrown Response

/-- A route-table entry `{ method, pattern, handler }`. -/
structure Route where
  method : String
  pattern : URLPattern
  handler : CompiledHandler

/-- External collaborators consumed by the router, bundled:
`executeEffects` (side-effect applier), `toPattern` (pathname anchored to the
ambient location), `urlPatternOfInit` (`new URLPattern(init)` for external
routes), `urlOrigin` (`new URL(u).origin`) and `urlResolve`
(`new URL(rel, base).href`). -/
structure Host where
  executeEffects : List Effect → Response → Response
  toPattern : String → URLPattern
  urlPatternOfInit : String → URLPattern
  urlOrigin : String → String
  urlResolve : String → String → String

/-- The router state: base middleware, primary table, recovery table, debug
option. Tables are append-only. -/
structure WorkerRouter where
  middleware : MwBase
  routes : List Route := []
  recoverRoutes : List Route := []
  debug : Bool := false

/-- The JavaScript `String.prototype.toUpperCase` host primitive, modelled
executably (character-wise upper-casing; HTTP method names are ASCII). -/
def jsToUpper (s : String) : String := String.mk (s.data.map Char.toUpper)

/-- The method filter of `#execPatterns`:
`method !== 'ANY' && method !== request.method.toUpperCase()`. -/
def codeSkip (r : Route) (request : Request) : Bool :=
  r.method != "ANY" && r.method != jsToUpper request.method

/-- The `#execPatterns`: walk the table in insertion order, skip entries whose
method filter fails, return the first entry whose pattern matches the full
URL, together with the match. -/
def execPatterns (fqURL : String) (request : Request) :
    List Route → Option (CompiledHandler × URLPatternResult)
  | [] => none
  | r :: rs =>
    if codeSkip r request then
      execPatterns fqURL request rs
    else
      match r.pattern.exec fqURL with
      | none => execPatterns fqURL request rs
      | some m => some (r.handler, m)

theorem execPatterns_cons_skip (fqURL : String) (request : Request) (r : Route)
    (rs : List Route) (h : codeSkip r request = true) :
    execPatterns fqURL request (r :: rs) = execPatterns fqURL request rs := by
  simp [execPatterns, h]

theorem execPatterns_cons_nomatch (fqURL : String) (request : Request) (r : Route)
    (rs : List Route) (h : codeSkip r request = false)
    (he : r.pattern.exec fqURL = none) :
    execPatterns fqURL request (r :: rs) = execPatterns fqURL request rs := by
  simp [execPatterns, h, he]

theorem execPatterns_cons_match (fqURL : String) (request : Request) (r : Route)
    (rs : List Route) (m : URLPatternResult) (h : codeSkip r request = false)
    (he : r.pattern.exec fqURL = some m) :
    execPatterns fqURL request (r :: rs) = some (r.handler, m) := by
  simp [execPatterns, h, he]

/-- Outcome of one `#route` call: the settled result of the returned promise
(`Except.error` = the promise rejected, i.e. the dispatcher threw), whether
`handledResolver.resolve` was executed, and the diagnostic notifications
emitted through `#fireError`. -/
structure RouteOutcome where
  result : Except Thrown Response
  handledResolved : Bool
  fired : List Thrown
deriving Repr

/-- The classification in the recovery branch of `#route`:
`err instanceof Response ? [err, undefined] : [internalServerError(), err]`. -/
def classifyErr (err : Thrown) : Response × Option Thrown :=
  match err with
  | .resp r => (r, none)
  | e => (internalServerError, some e)

/-- The message of the `AggregateError` built on a double failure. -/
def aggregateMsg : String := "Route handler as well as recover handler failed"

/-- The primary `Object.assign(ctx, { match, handled, effects })`: the match
is stored and a fresh effects list installed (`handled` is modelled by the
outcome flag). -/
def primaryCtx (ctx : Ctx) (m : URLPatternResult) : Ctx :=
  { ctx with matchR := some m, effects := [] }

/-- The recovery `Object.assign(ctx, { match, handled, response, error,
effects })`, with `response`/`error` produced by the classification of the
caught value. -/
def recoverCtx (ctx : Ctx) (m : URLPatternResult) (err : Thrown) : Ctx :=
  { ctx with matchR := some m, response? := some (classifyErr err).1,
             error? := (classifyErr err).2, effects := [] }

/-- The `catch (err)` block of `#route`.  `ctx` is the current value of the
per-dispatch context object (already carrying the primary match if the
primary `Object.assign` ran).  Returns the outcome together with the final
value of the context object. -/
def routeCatch (router : WorkerRouter) (fqURL : String) (ctx : Ctx)
    (err : Thrown) : RouteOutcome × Ctx :=
  match execPatterns fqURL ctx.request router.recoverRoutes with
  | some (handler, m) =>
    let ctx' : Ctx := recoverCtx ctx m err
    match handler ctx' with
    | .ok r => (⟨.ok r, false, []⟩, ctx')
    | .error recoverErr =>
      let aggregateErr := Thrown.aggregate err recoverErr aggregateMsg
      if router.debug then (⟨.error aggregateErr, false, []⟩, ctx')
      else
        match recoverErr with
        | .resp r => (⟨.ok r, false, []⟩, ctx')
        | _ =>
          match err with
          | .resp r => (⟨.ok r, false, []⟩, ctx')
          | _ => (⟨.ok internalServerError, false, [aggregateErr]⟩, ctx')
  | none =>
    if router.debug then (⟨.error err, false, []⟩, ctx)
    else
      match err with
      | .resp r => (⟨.ok r, false, []⟩, ctx)
      | _ => (⟨.ok internalServerError, false, [err]⟩, ctx)

/-- The `#route(fqURL, ctx)`.  If no primary route resolves, `notFound()` is
thrown inside the `try`, so control reaches the same `catch` block as a
handler failure.  The two `Object.assign(ctx, …)` calls are modelled by
updating the threaded context value. -/
def route (router : WorkerRouter) (fqURL : String) (ctx : Ctx) :
    RouteOutcome × Ctx :=
  match execPatterns fqURL ctx.request router.routes with
  | none => routeCatch router fqURL ctx (Thrown.resp notFound)
  | some (handler, m) =>
    let ctx' : Ctx := primaryCtx ctx m
    match handler ctx' with
    | .ok response => (⟨.ok response, true, []⟩, ctx')
    | .error err => routeCatch router fqURL ctx' err

/-- The response/rejection of a dispatch, as seen by a caller awaiting the
promise returned by `#route` (used for nested-router delegation). -/
def routeResult (router : WorkerRouter) (fqURL : String) (ctx : Ctx) :
    Except Thrown Response :=
  (route router fqURL ctx).1.result

/-- The `Object.values(ctx.match?.pathname.groups ?? {})`: the capture values in
group-insertion order. -/
def groupValues (ctx : Ctx) : List String :=
  ((ctx.matchR.map fun m => m.pathname.groups).getD []).map Prod.snd

/-- The `#routeHandler`, the compiled handler stored by `use`/`useExternal`:
with at least one capture group, delegate to the sub-router's dispatcher at
`new URL(values.at(-1)!, new URL(ctx.request.url).origin).href`; with no
capture groups, throw a `TypeError`.  (`if (values.length)` + `values.at(-1)`
is rendered as one match on `getLast?`.) -/
def routeHandler (H : Host) (subRoute : String → Ctx → Except Thrown Response)
    (ctx : Ctx) : Except Thrown Response :=
  match (groupValues ctx).getLast? with
  | some lastValue =>
    subRoute (H.urlResolve lastValue (H.urlOrigin ctx.request.url)) ctx
  | none =>
    .error (.typeError
      "Pattern not suitable for nested routing. Did you forget to add a wildcard (*)?")

/-- The compiled handler pushed by `#pushRoute`: base middleware, then the
user handler, then the side-effect applier over the event's effects list. -/
def mkRouteHandler (H : Host) (baseMw : MwBase) (handler : HandlerFn) :
    CompiledHandler :=
  fun event =>
    (baseMw (Except.ok event)).bind fun ctx =>
      (handler event.request ctx).map fun response =>
        H.executeEffects event.effects response

/-- The compiled handler pushed by `#pushMiddlewareRoute`: the route
middleware is applied to the (awaitable) output of the base middleware. -/
def mkMiddlewareRouteHandler (H : Host) (baseMw : MwBase) (mw : MwBase)
    (handler : HandlerFn) : CompiledHandler :=
  fun event =>
    (mw (baseMw (Except.ok event))).bind fun ctx =>
      (handler event.request ctx).map fun response =>
        H.executeEffects event.effects response

/-- The compiled handler pushed by `#pushRecoverRoute`: the user handler is
invoked directly on the event (no base middleware), then effects. -/
def mkRecoverHandler (H : Host) (handler : HandlerFn) : CompiledHandler :=
  fun event =>
    (handler event.request event).map fun response =>
      H.executeEffects event.effects response

/-- The compiled handler pushed by `#pushMiddlewareRecoverRoute`: only the
route-specific middleware (applied to the plain event), then the handler,
then effects — the router's base middleware is not consulted. -/
def mkMiddlewareRecoverHandler (H : Host) (mw : MwBase) (handler : HandlerFn) :
    CompiledHandler :=
  fun event =>
    (mw (Except.ok event)).bind fun ctx =>
      (handler event.request ctx).map fun response =>
        H.executeEffects event.effects response

/-- The `#pushRoute`. -/
def pushRoute (H : Host) (router : WorkerRouter) (method : String)
    (pattern : URLPattern) (handler : HandlerFn) : WorkerRouter :=
  { router with
    routes := router.routes
      ++ [⟨method, pattern, mkRouteHandler H router.middleware handler⟩] }

/-- The `#pushMiddlewareRoute`. -/
def pushMiddlewareRoute (H : Host) (router : WorkerRouter) (method : String)
    (pattern : URLPattern) (mw : MwBase) (handler : HandlerFn) : WorkerRouter :=
  { router with
    routes := router.routes
      ++ [⟨method, pattern,
           mkMiddlewareRouteHandler H router.middleware mw handler⟩] }

/-- The `#pushRecoverRoute`. -/
def pushRecoverRoute (H : Host) (router : WorkerRouter) (method : String)
    (pattern : URLPattern) (handler : HandlerFn) : WorkerRouter :=
  { router with
    recoverRoutes := router.recoverRoutes
      ++ [⟨method, pattern, mkRecoverHandler H handler⟩] }

/-- The `#pushMiddlewareRecoverRoute`. -/
def pushMiddlewareRecoverRoute (H : Host) (router : WorkerRouter)
    (method : String) (pattern : URLPattern) (mw : MwBase)
    (handler : HandlerFn) : WorkerRouter :=
  { router with
    recoverRoutes := router.recoverRoutes
      ++ [⟨method, pattern, mkMiddlewareRecoverHandler H mw handler⟩] }

/-- The `any(path, handler)` (and its alias `all`): wildcard-method route. -/
def anyRoute (H : Host) (router : WorkerRouter) (path : String)
    (handler : HandlerFn) : WorkerRouter :=
  pushRoute H router "ANY" (H.toPattern path) handler

/-- The `any(path, middleware, handler)`. -/
def anyRouteWith (H : Host) (router : WorkerRouter) (path : String)
    (mw : MwBase) (handler : HandlerFn) : WorkerRouter :=
  pushMiddlewareRoute H router "ANY" (H.toPattern path) mw handler

/-- The `get(path, handler)`. -/
def getRoute (H : Host) (router : WorkerRouter) (path : String)
    (handler : HandlerFn) : WorkerRouter :=
  pushRoute H router "GET" (H.toPattern path) handler

/-- The `get(path, middleware, handler)`. -/
def getRouteWith (H : Host) (router : WorkerRouter) (path : String)
    (mw : MwBase) (handler : HandlerFn) : WorkerRouter :=
  pushMiddlewareRoute H router "GET" (H.toPattern path) mw handler

/-- The `post(path, handler)`. -/
def postRoute (H : Host) (router : WorkerRouter) (path : String)
    (handler : HandlerFn) : WorkerRouter :=
  pushRoute H router "POST" (H.toPattern path) handler

/-- The `put(path, handler)`. -/
def putRoute (H : Host) (router : WorkerRouter) (path : String)
    (handler : HandlerFn) : WorkerRouter :=
  pushRoute H router "PUT" (H.toPattern path) handler

/-- The `patch(path, handler)`. -/
def patchRoute (H : Host) (router : WorkerRouter) (path : String)
    (handler : HandlerFn) : WorkerRouter :=
  pushRoute H router "PATCH" (H.toPattern path) handler

/-- The `delete(path, handler)`. -/
def deleteRoute (H : Host) (router : WorkerRouter) (path : String)
    (handler : HandlerFn) : WorkerRouter :=
  pushRoute H router "DELETE" (H.toPattern path) handler

/-- The `head(path, handler)`. -/
def headRoute (H : Host) (router : WorkerRouter) (path : String)
    (handler : HandlerFn) : WorkerRouter :=
  pushRoute H router "HEAD" (H.toPattern path) handler

/-- The `options(path, handler)`. -/
def optionsRoute (H : Host) (router : WorkerRouter) (path : String)
    (handler : HandlerFn) : WorkerRouter :=
  pushRoute H router "OPTIONS" (H.toPattern path) handler

/-- The `external(init, handler)`: wildcard-method route over a full pattern
init. -/
def externalRoute (H : Host) (router : WorkerRouter) (init : String)
    (handler : HandlerFn) : WorkerRouter :=
  pushRoute H router "ANY" (H.urlPatternOfInit init) handler

/-- The `recover(path, handler)`: pushed to the recovery table, always with the
wildcard method marker. -/
def recover (H : Host) (router : WorkerRouter) (path : String)
    (handler : HandlerFn) : WorkerRouter :=
  pushRecoverRoute H router "ANY" (H.toPattern path) handler

/-- The `recover(path, middleware, handler)`. -/
def recoverWith (H : Host) (router : WorkerRouter) (path : String)
    (mw : MwBase) (handler : HandlerFn) : WorkerRouter :=
  pushMiddlewareRecoverRoute H router "ANY" (H.toPattern path) mw handler

/-- The `recoverExternal(init, handler)`. -/
def recoverExternal (H : Host) (router : WorkerRouter) (init : String)
    (handler : HandlerFn) : WorkerRouter :=
  pushRecoverRoute H router "ANY" (H.urlPatternOfInit init) handler

/-- The `recoverExternal(init, middleware, handler)`. -/
def recoverExternalWith (H : Host) (router : WorkerRouter) (init : String)
    (mw : MwBase) (handler : HandlerFn) : WorkerRouter :=
  pushMiddlewareRecoverRoute H router "ANY" (H.urlPatternOfInit init) mw handler

/-- The `use(path, subRouter)`: mounts the sub-router by pushing a wildcard-method
route whose handler is the sub-router's `#routeHandler` (the debug-mode
`console.warn` on a pattern without `*` is not modelled). -/
def useRoute (H : Host) (router : WorkerRouter) (path : String)
    (subRouter : WorkerRouter) : WorkerRouter :=
  { router with
    routes := router.routes
      ++ [⟨"ANY", H.toPattern path, routeHandler H (routeResult subRouter)⟩] }

/-- The object heap used to make the in-place `Object.assign` writes and the
fresh object allocations explicit: addresses are indices into the list. -/
def readObj (a : Nat) (h : List Ctx) : Ctx := h.getD a default

/-- In-place update of the object at address `a`. -/
def writeObj (a : Nat) (c : Ctx) (h : List Ctx) : List Ctx := h.set a c

/-- Allocation of a fresh object, returning its (fresh) address. -/
def allocObj (c : Ctx) (h : List Ctx) : Nat × List Ctx := (h.length, h ++ [c])

/-- The `#route` acting on the context object at address `a`.  Every
`Object.assign` inside `#route` targets that single object and nothing else
reads it concurrently, so its final value is written back once. -/
def routeHeap (router : WorkerRouter) (fqURL : String) (a : Nat)
    (h : List Ctx) : RouteOutcome × List Ctx :=
  let oc := route router fqURL (readObj a h)
  (oc.1, writeObj a oc.2 h)

/-- The `handle(request, ctx)`: the public entry point.  The caller-provided
context object at address `a` is only read; `{...ctx, request, waitUntil}`
allocates a fresh object (a shallow copy with `request` overridden), and the
dispatch runs on that fresh object. -/
def handle (router : WorkerRouter) (request : Request) (a : Nat)
    (h : List Ctx) : RouteOutcome × List Ctx :=
  let callerCtx := readObj a h
  let fresh := allocObj { callerCtx with request := request } h
  routeHeap router request.url fresh.1 fresh.2

/-- Concrete fixture: a pattern matching every URL, capturing it as group 0
(the behaviour of the `*` pathname pattern). -/
def anyPattern : URLPattern := ⟨fun u => some ⟨⟨u, [("0", u)]⟩⟩⟩

/-- Concrete fixture: a pattern matching no URL. -/
def noPattern : URLPattern := ⟨fun _ => none⟩

/-- Concrete fixture host: effects applier is a no-op, both pattern
constructors yield the match-everything pattern, URL resolution returns the
relative part. -/
def cHost : Host :=
  ⟨fun _ r => r, fun _ => anyPattern, fun _ => anyPattern, fun u => u,
   fun rel _ => rel⟩

/-- Concrete fixture request and base context. -/
def cRequest : Request := ⟨"https://example.com/item/3", "GET"⟩

def cCtx : Ctx := { request := cRequest }

/-- The method filter of the spec, stated positively: the entry fires for the
request's method iff its method is the wildcard marker or case-insensitively
equal to the request's method. -/
def methodAccepts (r : Route) (request : Request) : Prop :=
  r.method = "ANY" ∨ jsToUpper r.method = jsToUpper request.method

/-- An entry fires on a dispatch when its method is accepted and its pattern
matches the full URL. -/
def fires (fqURL : String) (request : Request) (r : Route) : Prop :=
  methodAccepts r request ∧ ∃ m, r.pattern.exec fqURL = some m

/-- For entries whose stored method is already uppercase (every method pushed
through the registration surface is one of the uppercase literals or `ANY`),
the code's string comparison agrees with case-insensitive comparison. -/
theorem codeSkip_false_iff (r : Route) (request : Request)
    (hu : jsToUpper r.method = r.method) :
    codeSkip r request = false ↔ methodAccepts r request := by
  unfold codeSkip methodAccepts
  constructor
  · intro h
    rcases Bool.and_eq_false_iff.mp h with h1 | h1
    · exact Or.inl (by simpa using h1)
    · exact Or.inr (by rw [hu]; simpa using h1)
  · intro h
    rcases h with h1 | h1
    · simp [h1]
    · rw [hu] at h1; simp [h1]

theorem execPatterns_append (fqURL : String) (request : Request)
    (l₁ l₂ : List Route) :
    execPatterns fqURL request (l₁ ++ l₂) =
      match execPatterns fqURL request l₁ with
      | some v => some v
      | none => execPatterns fqURL request l₂ := by
  induction l₁ with
  | nil => simp [execPatterns]
  | cons r rs ih =>
    by_cases hs : codeSkip r request = true
    · rw [List.cons_append, execPatterns_cons_skip _ _ _ _ hs,
        execPatterns_cons_skip _ _ _ _ hs, ih]
    · rcases he : r.pattern.exec fqURL with _ | m
      · rw [List.cons_append,
          execPatterns_cons_nomatch _ _ _ _ (Bool.not_eq_true _ ▸ hs) he,
          execPatterns_cons_nomatch _ _ _ _ (Bool.not_eq_true _ ▸ hs) he, ih]
      · rw [List.cons_append,
          execPatterns_cons_match _ _ _ _ _ (Bool.not_eq_true _ ▸ hs) he,
          execPatterns_cons_match _ _ _ _ _ (Bool.not_eq_true _ ▸ hs) he]

theorem execPatterns_eq_none_iff (fqURL : String) (request : Request)
    (routes : List Route)
    (hup : ∀ r ∈ routes, jsToUpper r.method = r.method) :
    execPatterns fqURL request routes = none ↔
      ∀ r ∈ routes, ¬ fires fqURL request r := by
  induction routes with
  | nil => simp [execPatterns]
  | cons r rs ih =>
    have hu : jsToUpper r.method = r.method := hup r (by simp)
    have hup' : ∀ r' ∈ rs, jsToUpper r'.method = r'.method :=
      fun r' hr' => hup r' (by simp [hr'])
    by_cases hs : codeSkip r request = true
    · have hnacc : ¬ methodAccepts r request := fun hacc => by
        have := (codeSkip_false_iff r request hu).mpr hacc
        rw [this] at hs; exact Bool.false_ne_true hs
      have hnf : ¬ fires fqURL request r := fun hf => hnacc hf.1
      rw [execPatterns_cons_skip _ _ _ _ hs, ih hup']
      simp only [List.mem_cons, forall_eq_or_imp]
      exact ⟨fun h => ⟨hnf, h⟩, fun h => h.2⟩
    · have hs' : codeSkip r request = false := Bool.not_eq_true _ ▸ hs
      have hacc : methodAccepts r request := (codeSkip_false_iff r request hu).mp hs'
      rcases he : r.pattern.exec fqURL with _ | m
      · have hnf : ¬ fires fqURL request r := fun hf => by
          rcases hf.2 with ⟨m, hm⟩
          rw [he] at hm; exact Option.noConfusion hm
        rw [execPatterns_cons_nomatch _ _ _ _ hs' he, ih hup']
        simp only [List.mem_cons, forall_eq_or_imp]
        exact ⟨fun h => ⟨hnf, h⟩, fun h => h.2⟩
      · have hf : fires fqURL request r := ⟨hacc, m, he⟩
        rw [execPatterns_cons_match _ _ _ _ _ hs' he]
        simp only [List.mem_cons, forall_eq_or_imp]
        constructor
        · intro h; exact absurd h (by simp)
        · intro h; exact absurd hf h.1

theorem execPatterns_eq_some_iff (fqURL : String) (request : Request)
    (routes : List Route)
    (hup : ∀ r ∈ routes, jsToUpper r.method = r.method)
    (hFn : CompiledHandler) (m : URLPatternResult) :
    execPatterns fqURL request routes = some (hFn, m) ↔
      ∃ (i : Nat) (r' : Route), routes[i]? = some r' ∧ methodAccepts r' request ∧
        r'.pattern.exec fqURL = some m ∧ hFn = r'.handler ∧
        ∀ (j : Nat) (rj : Route), j < i → routes[j]? = some rj →
          ¬ fires fqURL request rj := by
  induction routes with
  | nil => simp [execPatterns]
  | cons r rs ih =>
    have hu : jsToUpper r.method = r.method := hup r (by simp)
    have hup' : ∀ r' ∈ rs, jsToUpper r'.method = r'.method :=
      fun r' hr' => hup r' (by simp [hr'])
    by_cases hs : codeSkip r request = true
    · have hnacc : ¬ methodAccepts r request := fun hacc => by
        have := (codeSkip_false_iff r request hu).mpr hacc
        rw [this] at hs; exact Bool.false_ne_true hs
      have hnf : ¬ fires fqURL request r := fun hf => hnacc hf.1
      rw [execPatterns_cons_skip _ _ _ _ hs, ih hup']
      constructor
      · rintro ⟨i, r', hi, hacc, hex, hh, hpre⟩
        refine ⟨i + 1, r', by simpa using hi, hacc, hex, hh, ?_⟩
        intro j rj hj hjget
        cases j with
        | zero =>
          simp only [List.getElem?_cons_zero, Option.some.injEq] at hjget
          subst hjget; exact hnf
        | succ j' =>
          exact hpre j' rj (Nat.lt_of_succ_lt_succ hj) (by simpa using hjget)
      · rintro ⟨i, r', hi, hacc, hex, hh, hpre⟩
        cases i with
        | zero =>
          simp only [List.getElem?_cons_zero, Option.some.injEq] at hi
          subst hi; exact absurd hacc hnacc
        | succ i' =>
          refine ⟨i', r', by simpa using hi, hacc, hex, hh, ?_⟩
          intro j rj hj hjget
          exact hpre (j + 1) rj (Nat.succ_lt_succ hj) (by simpa using hjget)
    · have hs' : codeSkip r request = false := Bool.not_eq_true _ ▸ hs
      have hacc : methodAccepts r request := (codeSkip_false_iff r request hu).mp hs'
      rcases he : r.pattern.exec fqURL with _ | m₀
      · have hnf : ¬ fires fqURL request r := fun hf => by
          rcases hf.2 with ⟨mw, hmw⟩
          rw [he] at hmw; exact Option.noConfusion hmw
        rw [execPatterns_cons_nomatch _ _ _ _ hs' he, ih hup']
        constructor
        · rintro ⟨i, r', hi, hacc', hex, hh, hpre⟩
          refine ⟨i + 1, r', by simpa using hi, hacc', hex, hh, ?_⟩
          intro j rj hj hjget
          cases j with
          | zero =>
            simp only [List.getElem?_cons_zero, Option.some.injEq] at hjget
            subst hjget; exact hnf
          | succ j' =>
            exact hpre j' rj (Nat.lt_of_succ_lt_succ hj) (by simpa using hjget)
        · rintro ⟨i, r', hi, hacc', hex, hh, hpre⟩
          cases i with
          | zero =>
            simp only [List.getElem?_cons_zero, Option.some.injEq] at hi
            subst hi
            rw [he] at hex; exact Option.noConfusion hex
          | succ i' =>
            refine ⟨i', r', by simpa using hi, hacc', hex, hh, ?_⟩
            intro j rj hj hjget
            exact hpre (j + 1) rj (Nat.succ_lt_succ hj) (by simpa using hjget)
      · have hf : fires fqURL request r := ⟨hacc, m₀, he⟩
        rw [execPatterns_cons_match _ _ _ _ _ hs' he]
        constructor
        · intro h
          have h' : r.handler = hFn ∧ m₀ = m := by
            have := Option.some.inj h
            exact ⟨congrArg Prod.fst this, congrArg Prod.snd this⟩
          refine ⟨0, r, by simp, hacc, ?_, h'.1.symm, ?_⟩
          · rw [he, h'.2]
          · intro j rj hj _; exact absurd hj (Nat.not_lt_zero j)
        · rintro ⟨i, r', hi, hacc', hex, hh, hpre⟩
          cases i with
          | zero =>
            simp only [List.getElem?_cons_zero, Option.some.injEq] at hi
            subst hi
            rw [he] at hex
            have hm : m₀ = m := Option.some.inj hex
            rw [hh, hm]
          | succ i' =>
            have := hpre 0 r (Nat.succ_pos i') (by simp)
            exact absurd hf this

theorem codeSkip_congr (r r' : Route) (request : Request)
    (hm : r'.method = r.method) : codeSkip r' request = codeSkip r request := by
  unfold codeSkip; rw [hm]

theorem execPatterns_duplicate (fqURL : String) (request : Request)
    (t s u : List Route) (r r' : Route) (hm : r'.method = r.method)
    (hp : r'.pattern = r.pattern) :
    execPatterns fqURL request (t ++ r :: (s ++ r' :: u)) =
      execPatterns fqURL request (t ++ r :: (s ++ u)) := by
  rw [execPatterns_append, execPatterns_append]
  rcases execPatterns fqURL request t with _ | v
  · show execPatterns fqURL request (r :: (s ++ r' :: u)) =
      execPatterns fqURL request (r :: (s ++ u))
    by_cases hs : codeSkip r request = true
    · rw [execPatterns_cons_skip _ _ _ _ hs, execPatterns_cons_skip _ _ _ _ hs,
        execPatterns_append, execPatterns_append]
      rcases execPatterns fqURL request s with _ | w
      · show execPatterns fqURL request (r' :: u) = execPatterns fqURL request u
        exact execPatterns_cons_skip _ _ _ _ ((codeSkip_congr r r' request hm) ▸ hs)
      · rfl
    · have hs' : codeSkip r request = false := Bool.not_eq_true _ ▸ hs
      rcases he : r.pattern.exec fqURL with _ | m
      · rw [execPatterns_cons_nomatch _ _ _ _ hs' he,
          execPatterns_cons_nomatch _ _ _ _ hs' he,
          execPatterns_append, execPatterns_append]
        rcases execPatterns fqURL request s with _ | w
        · show execPatterns fqURL request (r' :: u) = execPatterns fqURL request u
          exact execPatterns_cons_nomatch _ _ _ _
            ((codeSkip_congr r r' request hm) ▸ hs') (hp ▸ he)
        · rfl
      · rw [execPatterns_cons_match _ _ _ _ _ hs' he,
          execPatterns_cons_match _ _ _ _ _ hs' he]
  · rfl

/-- Claim **C1.** Route resolution iterates the table in insertion order, skips an
entry whose method is neither the wildcard marker `ANY` nor (for the
uppercase method strings the registration surface stores) case-insensitively
equal to the request's method, returns the first entry whose pattern matches
the full URL together with that match, and returns none when the table is
exhausted; registering a second entry with the same method and pattern never
changes resolution, so the first registration wins. -/
theorem claim_C1_first_match_resolution (fqURL : String) (request : Request)
    (routes : List Route)
    (hup : ∀ r ∈ routes, jsToUpper r.method = r.method) :
    (execPatterns fqURL request routes = none ↔
       ∀ r ∈ routes, ¬ fires fqURL request r)
    ∧ (∀ (hFn : CompiledHandler) (m : URLPatternResult),
        execPatterns fqURL request routes = some (hFn, m) ↔
          ∃ (i : Nat) (r' : Route), routes[i]? = some r' ∧
            methodAccepts r' request ∧ r'.pattern.exec fqURL = some m ∧
            hFn = r'.handler ∧
            ∀ (j : Nat) (rj : Route), j < i → routes[j]? = some rj →
              ¬ fires fqURL request rj)
    ∧ (∀ (t s u : List Route) (r r' : Route), r'.method = r.method →
        r'.pattern = r.pattern →
        execPatterns fqURL request (t ++ r :: (s ++ r' :: u)) =
          execPatterns fqURL request (t ++ r :: (s ++ u))) :=
  ⟨execPatterns_eq_none_iff fqURL request routes hup,
   fun hFn m => execPatterns_eq_some_iff fqURL request routes hup hFn m,
   fun t s u r r' hm hp => execPatterns_duplicate fqURL request t s u r r' hm hp⟩

/-- Concrete fixture URL. -/
def cURL : String := "https://example.com/item/3"

/-- Concrete fixture: a router with no routes at all. -/
def cRouterEmpty : WorkerRouter := { middleware := fun x => x }

/-- Concrete fixture response returned by the recovery handler below. -/
def recoveredResponse : Response := ⟨200, "Recovered"⟩

/-- Concrete fixture recovery handler: always succeeds. -/
def cRecHandlerOk : CompiledHandler := fun _ => .ok recoveredResponse

/-- Concrete fixture: a router with an empty primary table and a catch-all
recovery route. -/
def cRouterRecoverOnly : WorkerRouter :=
  { middleware := fun x => x,
    recoverRoutes := [⟨"ANY", anyPattern, cRecHandlerOk⟩] }

/-- Claim **C2, counterexample.**  The claim says that when no primary route
matches, `#route` short-circuits to a not-found response and the recovery
table is not consulted.  On this router (empty primary table, catch-all
recovery route) the dispatch returns the recovery handler's response, which
is not the not-found response: `notFound()` is thrown inside the `try` and
lands in the same `catch` block as handler failures. -/
theorem claim_C2_counterexample :
    execPatterns cURL cRequest cRouterRecoverOnly.routes = none
    ∧ (route cRouterRecoverOnly cURL cCtx).1.result = Except.ok recoveredResponse
    ∧ recoveredResponse ≠ notFound :=
  ⟨rfl, rfl, by decide⟩

/-- Claim **C2 (amended).**  When no primary route matches, `notFound()` is thrown
inside the `try`, so dispatch proceeds exactly like a thrown-Response
failure: the Recovery Route Table IS consulted; only when no recovery route
matches either (and debug mode is off) does the dispatch return the
not-found response, with no diagnostic notification. -/
theorem claim_C2_notfound_enters_recovery (router : WorkerRouter)
    (fqURL : String) (ctx : Ctx)
    (hnone : execPatterns fqURL ctx.request router.routes = none) :
    route router fqURL ctx = routeCatch router fqURL ctx (Thrown.resp notFound)
    ∧ (execPatterns fqURL ctx.request router.recoverRoutes = none →
        router.debug = false →
        (route router fqURL ctx).1 = ⟨Except.ok notFound, false, []⟩) := by
  constructor
  · unfold route; rw [hnone]
  · intro hrec hdbg
    simp [route, routeCatch, hnone, hrec, hdbg]

/-- Witness for C2 (amended) at the empty router. -/
theorem claim_C2_notfound_enters_recovery_witness :
    execPatterns cURL cCtx.request cRouterEmpty.routes = none
    ∧ (route cRouterEmpty cURL cCtx = routeCatch cRouterEmpty cURL cCtx (Thrown.resp notFound)
       ∧ (execPatterns cURL cCtx.request cRouterEmpty.recoverRoutes = none →
           cRouterEmpty.debug = false →
           (route cRouterEmpty cURL cCtx).1 = ⟨Except.ok notFound, false, []⟩)) :=
  ⟨rfl, claim_C2_notfound_enters_recovery cRouterEmpty cURL cCtx rfl⟩

theorem primaryCtx_request (ctx : Ctx) (m : URLPatternResult) :
    (primaryCtx ctx m).request = ctx.request := rfl

theorem recoverCtx_primaryCtx (ctx : Ctx) (m rm : URLPatternResult)
    (err : Thrown) :
    recoverCtx (primaryCtx ctx m) rm err = recoverCtx ctx rm err := rfl

/-- Claim **C3.**  When the primary handler throws, recovery resolution runs
against the Recovery Route Table with the same full URL (and the same
request), and the recovery context is classified from the caught value: a
thrown `Response` becomes the context's `response` with `error` unset, any
other thrown value leaves `response` as the generic internal-error response
and lands in `error` raw.  If the recovery handler then succeeds its
response is the dispatch result. -/
theorem claim_C3_recovery_same_url_and_classification
    (router : WorkerRouter) (fqURL : String) (ctx : Ctx)
    (hFn : CompiledHandler) (m : URLPatternResult) (err : Thrown)
    (rh : CompiledHandler) (rm : URLPatternResult)
    (hprim : execPatterns fqURL ctx.request router.routes = some (hFn, m))
    (hthrow : hFn (primaryCtx ctx m) = .error err)
    (hrec : execPatterns fqURL ctx.request router.recoverRoutes = some (rh, rm)) :
    (∀ r : Response,
      rh (recoverCtx ctx rm err) = .ok r →
      (route router fqURL ctx).1 = ⟨Except.ok r, false, []⟩)
    ∧ (∀ r : Response, err = .resp r → classifyErr err = (r, none))
    ∧ (err.isResponse = false →
        classifyErr err = (internalServerError, some err)) := by
  refine ⟨?_, ?_, ?_⟩
  · intro r hok
    simp only [route, hprim, hthrow, routeCatch, primaryCtx_request,
      recoverCtx_primaryCtx, hrec, hok]
  · intro r herr; subst herr; rfl
  · intro hnr; cases err <;> simp_all [classifyErr, Thrown.isResponse]

/-- Concrete fixture primary handler that throws a non-Response error. -/
def cThrowingHandler : CompiledHandler := fun _ => .error (.err "boom")

/-- Concrete fixture: catch-all primary route that throws, catch-all
recovery route that succeeds. -/
def cRouterThrowRecover : WorkerRouter :=
  { middleware := fun x => x,
    routes := [⟨"ANY", anyPattern, cThrowingHandler⟩],
    recoverRoutes := [⟨"ANY", anyPattern, cRecHandlerOk⟩] }

/-- The match produced by `anyPattern` on the fixture URL. -/
def cAnyMatch : URLPatternResult := ⟨⟨cURL, [("0", cURL)]⟩⟩

/-- Witness for C3 on the throw-then-recover fixture router. -/
theorem claim_C3_recovery_same_url_and_classification_witness :
    execPatterns cURL cCtx.request cRouterThrowRecover.routes
        = some (cThrowingHandler, cAnyMatch)
    ∧ cThrowingHandler (primaryCtx cCtx cAnyMatch) = .error (.err "boom")
    ∧ execPatterns cURL cCtx.request cRouterThrowRecover.recoverRoutes
        = some (cRecHandlerOk, cAnyMatch)
    ∧ ((∀ r : Response,
        cRecHandlerOk (recoverCtx cCtx cAnyMatch (.err "boom")) = .ok r →
        (route cRouterThrowRecover cURL cCtx).1 = ⟨Except.ok r, false, []⟩)
      ∧ (∀ r : Response, Thrown.err "boom" = .resp r →
          classifyErr (.err "boom") = (r, none))
      ∧ ((Thrown.err "boom").isResponse = false →
          classifyErr (.err "boom") = (internalServerError, some (.err "boom")))) :=
  ⟨rfl, rfl, rfl,
   claim_C3_recovery_same_url_and_classification cRouterThrowRecover cURL cCtx
     cThrowingHandler cAnyMatch (.err "boom") cRecHandlerOk cAnyMatch rfl rfl rfl⟩

/-- Claim **C4.**  When both the primary handler and the resolved recovery handler
throw, the two failures are combined into one `AggregateError`; in debug mode
that aggregate is propagated (the promise rejects with it); otherwise a
thrown-Response recovery failure is returned, else a thrown-Response original
failure is returned, else the diagnostic notification fires with the
aggregate and the generic internal-error response is returned. -/
theorem claim_C4_double_failure (router : WorkerRouter) (fqURL : String)
    (ctx : Ctx) (hFn : CompiledHandler) (m : URLPatternResult) (err : Thrown)
    (rh : CompiledHandler) (rm : URLPatternResult) (recoverErr : Thrown)
    (hprim : execPatterns fqURL ctx.request router.routes = some (hFn, m))
    (hthrow : hFn (primaryCtx ctx m) = .error err)
    (hrec : execPatterns fqURL ctx.request router.recoverRoutes = some (rh, rm))
    (hrthrow : rh (recoverCtx ctx rm err) = .error recoverErr) :
    (router.debug = true →
      (route router fqURL ctx).1 =
        ⟨Except.error (Thrown.aggregate err recoverErr aggregateMsg), false, []⟩)
    ∧ (router.debug = false → ∀ r : Response, recoverErr = .resp r →
        (route router fqURL ctx).1 = ⟨Except.ok r, false, []⟩)
    ∧ (router.debug = false → recoverErr.isResponse = false →
        ∀ r : Response, err = .resp r →
        (route router fqURL ctx).1 = ⟨Except.ok r, false, []⟩)
    ∧ (router.debug = false → recoverErr.isResponse = false →
        err.isResponse = false →
        (route router fqURL ctx).1 =
          ⟨Except.ok internalServerError, false,
           [Thrown.aggregate err recoverErr aggregateMsg]⟩) := by
  refine ⟨?_, ?_, ?_, ?_⟩
  · intro hdbg
    simp only [route, hprim, hthrow, routeCatch, primaryCtx_request,
      recoverCtx_primaryCtx, hrec, hrthrow, hdbg, if_true]
  · intro hdbg r hr
    subst hr
    simp [route, hprim, hthrow, routeCatch, primaryCtx_request,
      recoverCtx_primaryCtx, hrec, hrthrow, hdbg]
  · intro hdbg hnr r he
    subst he
    cases recoverErr <;>
      simp_all [route, hprim, routeCatch, primaryCtx_request,
        recoverCtx_primaryCtx, Thrown.isResponse]
  · intro hdbg hnr hne
    cases recoverErr <;> cases err <;>
      simp_all [route, routeCatch, primaryCtx_request,
        recoverCtx_primaryCtx, Thrown.isResponse]

/-- Concrete fixture recovery handler that throws a non-Response error. -/
def cRecHandlerThrow : CompiledHandler := fun _ => .error (.err "bust")

/-- Concrete fixture: both primary and recovery handlers throw. -/
def cRouterDoubleFail : WorkerRouter :=
  { middleware := fun x => x,
    routes := [⟨"ANY", anyPattern, cThrowingHandler⟩],
    recoverRoutes := [⟨"ANY", anyPattern, cRecHandlerThrow⟩] }

/-- Witness for C4 on the double-failure fixture router. -/
theorem claim_C4_double_failure_witness :
    execPatterns cURL cCtx.request cRouterDoubleFail.routes
        = some (cThrowingHandler, cAnyMatch)
    ∧ cThrowingHandler (primaryCtx cCtx cAnyMatch) = .error (.err "boom")
    ∧ execPatterns cURL cCtx.request cRouterDoubleFail.recoverRoutes
        = some (cRecHandlerThrow, cAnyMatch)
    ∧ cRecHandlerThrow (recoverCtx cCtx cAnyMatch (.err "boom"))
        = .error (.err "bust")
    ∧ ((cRouterDoubleFail.debug = true →
        (route cRouterDoubleFail cURL cCtx).1 =
          ⟨Except.error (Thrown.aggregate (.err "boom") (.err "bust") aggregateMsg),
           false, []⟩)
      ∧ (cRouterDoubleFail.debug = false → ∀ r : Response,
          Thrown.err "bust" = .resp r →
          (route cRouterDoubleFail cURL cCtx).1 = ⟨Except.ok r, false, []⟩)
      ∧ (cRouterDoubleFail.debug = false →
          (Thrown.err "bust").isResponse = false → ∀ r : Response,
          Thrown.err "boom" = .resp r →
          (route cRouterDoubleFail cURL cCtx).1 = ⟨Except.ok r, false, []⟩)
      ∧ (cRouterDoubleFail.debug = false →
          (Thrown.err "bust").isResponse = false →
          (Thrown.err "boom").isResponse = false →
          (route cRouterDoubleFail cURL cCtx).1 =
            ⟨Except.ok internalServerError, false,
             [Thrown.aggregate (.err "boom") (.err "bust") aggregateMsg]⟩)) :=
  ⟨rfl, rfl, rfl, rfl,
   claim_C4_double_failure cRouterDoubleFail cURL cCtx cThrowingHandler
     cAnyMatch (.err "boom") cRecHandlerThrow cAnyMatch (.err "bust")
     rfl rfl rfl rfl⟩

/-- Concrete fixture response thrown as a well-known signal. -/
def teapot : Response := ⟨418, "I am a teapot"⟩

/-- Concrete fixture handler that throws `teapot` as a Response. -/
def cTeapotHandler : CompiledHandler := fun _ => .error (.resp teapot)

/-- Concrete fixture: debug-mode router whose only route throws a Response,
with no recovery routes. -/
def cRouterDebugTeapot : WorkerRouter :=
  { middleware := fun x => x,
    routes := [⟨"ANY", anyPattern, cTeapotHandler⟩],
    debug := true }

/-- Claim **C5, counterexample.**  The claim says a thrown Response with no
matching recovery route is returned as the response even in debug mode.  On
this debug-mode router the dispatch instead rejects with the thrown
Response: the `if (this.#opts.debug) throw err` check precedes the
`err instanceof Response` check. -/
theorem claim_C5_counterexample :
    cRouterDebugTeapot.debug = true
    ∧ execPatterns cURL cCtx.request cRouterDebugTeapot.recoverRoutes = none
    ∧ (route cRouterDebugTeapot cURL cCtx).1.result
        = Except.error (Thrown.resp teapot)
    ∧ (route cRouterDebugTeapot cURL cCtx).1.result ≠ Except.ok teapot :=
  ⟨rfl, rfl, rfl, by
    rw [show (route cRouterDebugTeapot cURL cCtx).1.result
        = Except.error (Thrown.resp teapot) from rfl]
    simp⟩

/-- Claim **C5 (amended).**  When the primary handler throws a Response and no
recovery route matches: with debug off, that exact Response is returned with
no diagnostic notification; with debug on, the dispatch rethrows it (the
debug check runs before the well-known-signal check, so thrown Responses are
not excluded from debug-mode rethrowing). -/
theorem claim_C5_thrown_response_no_recovery (router : WorkerRouter)
    (fqURL : String) (ctx : Ctx) (hFn : CompiledHandler)
    (m : URLPatternResult) (r : Response)
    (hprim : execPatterns fqURL ctx.request router.routes = some (hFn, m))
    (hthrow : hFn (primaryCtx ctx m) = .error (.resp r))
    (hrec : execPatterns fqURL ctx.request router.recoverRoutes = none) :
    (router.debug = false →
      (route router fqURL ctx).1 = ⟨Except.ok r, false, []⟩)
    ∧ (router.debug = true →
      (route router fqURL ctx).1 = ⟨Except.error (Thrown.resp r), false, []⟩) := by
  constructor
  · intro hdbg
    simp [route, hprim, hthrow, routeCatch, primaryCtx_request, hrec, hdbg]
  · intro hdbg
    simp [route, hprim, hthrow, routeCatch, primaryCtx_request, hrec, hdbg]

/-- Concrete fixture: production-mode router whose only route throws a
Response, with no recovery routes. -/
def cRouterProdTeapot : WorkerRouter :=
  { middleware := fun x => x,
    routes := [⟨"ANY", anyPattern, cTeapotHandler⟩] }

/-- Witness for C5 (amended) on the production-mode teapot router. -/
theorem claim_C5_thrown_response_no_recovery_witness :
    execPatterns cURL cCtx.request cRouterProdTeapot.routes
        = some (cTeapotHandler, cAnyMatch)
    ∧ cTeapotHandler (primaryCtx cCtx cAnyMatch) = .error (.resp teapot)
    ∧ execPatterns cURL cCtx.request cRouterProdTeapot.recoverRoutes = none
    ∧ ((cRouterProdTeapot.debug = false →
        (route cRouterProdTeapot cURL cCtx).1 = ⟨Except.ok teapot, false, []⟩)
      ∧ (cRouterProdTeapot.debug = true →
        (route cRouterProdTeapot cURL cCtx).1 =
          ⟨Except.error (Thrown.resp teapot), false, []⟩)) :=
  ⟨rfl, rfl, rfl,
   claim_C5_thrown_response_no_recovery cRouterProdTeapot cURL cCtx
     cTeapotHandler cAnyMatch teapot rfl rfl rfl⟩

/-- Claim **C6.**  Recovery routes are isolated from the router's base middleware:
the recovery table produced by `recover` (with or without route middleware)
does not depend on the base middleware at all, and the compiled recovery
pipeline is exactly own-middleware (if any), handler, effect application —
whereas every primary compiled handler (both the `#pushRoute` and the
`#pushMiddlewareRoute` variant) applies the base middleware first. -/
theorem claim_C6_recovery_isolated_from_base_middleware (H : Host)
    (mw₁ mw₂ rmw : MwBase) (routes recs : List Route) (dbg : Bool)
    (path : String) (handler handler₂ : HandlerFn) :
    ((recover H ⟨mw₁, routes, recs, dbg⟩ path handler).recoverRoutes
      = (recover H ⟨mw₂, routes, recs, dbg⟩ path handler).recoverRoutes)
    ∧ ((recoverWith H ⟨mw₁, routes, recs, dbg⟩ path rmw handler₂).recoverRoutes
      = (recoverWith H ⟨mw₂, routes, recs, dbg⟩ path rmw handler₂).recoverRoutes)
    ∧ (∀ event : Ctx, mkRecoverHandler H handler event
        = (handler event.request event).map fun response =>
            H.executeEffects event.effects response)
    ∧ (∀ event : Ctx, mkMiddlewareRecoverHandler H rmw handler₂ event
        = (rmw (Except.ok event)).bind fun ctx =>
            (handler₂ event.request ctx).map fun response =>
              H.executeEffects event.effects response)
    ∧ (∀ event : Ctx, mkRouteHandler H mw₁ handler event
        = (mw₁ (Except.ok event)).bind fun ctx =>
            (handler event.request ctx).map fun response =>
              H.executeEffects event.effects response)
    ∧ (∀ event : Ctx, mkMiddlewareRouteHandler H mw₁ rmw handler₂ event
        = (rmw (mw₁ (Except.ok event))).bind fun ctx =>
            (handler₂ event.request ctx).map fun response =>
              H.executeEffects event.effects response) :=
  ⟨rfl, rfl, fun _ => rfl, fun _ => rfl, fun _ => rfl, fun _ => rfl⟩

/-- Concrete fixture middlewares and handler function. -/
def cMwId : MwBase := fun x => x

def cMwBoom : MwBase := fun _ => .error (.err "mw-boom")

def cOkHandlerFn : HandlerFn := fun _ _ => .ok recoveredResponse

/-- Witness for C6: the recovery tables registered under two different base
middlewares coincide. -/
theorem claim_C6_recovery_isolated_from_base_middleware_witness :
    (recover cHost ⟨cMwId, [], [], false⟩ "*" cOkHandlerFn).recoverRoutes
      = (recover cHost ⟨cMwBoom, [], [], false⟩ "*" cOkHandlerFn).recoverRoutes :=
  (claim_C6_recovery_isolated_from_base_middleware cHost cMwId cMwBoom cMwId
    [] [] false "*" cOkHandlerFn cOkHandlerFn).1

/-- Every outcome produced inside the `catch` block leaves the completion
signal unresolved: `handledResolver.resolve` appears only on the non-throwing
primary path. -/
theorem routeCatch_handledResolved (router : WorkerRouter) (fqURL : String)
    (ctx : Ctx) (err : Thrown) :
    (routeCatch router fqURL ctx err).1.handledResolved = false := by
  unfold routeCatch
  rcases execPatterns fqURL ctx.request router.recoverRoutes with _ | ⟨handler, m⟩
  · dsimp only
    split
    · rfl
    · split <;> rfl
  · dsimp only
    rcases handler (recoverCtx ctx m err) with _ | r
    · dsimp only
      split
      · rfl
      · split
        · rfl
        · split <;> rfl
    · rfl

/-- Claim **C7, counterexample.**  The claim says the completion signal is resolved
for every dispatch that produces a response, on the normal and the recovery
path alike.  This dispatch produces a response through the recovery path,
yet the completion signal is never resolved: `handledResolver.resolve` is
only executed on the non-throwing primary path. -/
theorem claim_C7_counterexample :
    (route cRouterThrowRecover cURL cCtx).1.result = Except.ok recoveredResponse
    ∧ (route cRouterThrowRecover cURL cCtx).1.handledResolved = false :=
  ⟨rfl, rfl⟩

/-- Claim **C7 (amended).**  The completion signal is resolved exactly when the
primary phase succeeds: a primary route resolves and its compiled handler
returns a response without throwing.  On every `catch`-path dispatch —
including recovery dispatches that do produce a response — the signal is
left unresolved forever. -/
theorem claim_C7_handled_resolved_iff_primary_success (router : WorkerRouter)
    (fqURL : String) (ctx : Ctx) :
    (route router fqURL ctx).1.handledResolved = true ↔
      ∃ (hFn : CompiledHandler) (m : URLPatternResult) (r : Response),
        execPatterns fqURL ctx.request router.routes = some (hFn, m)
        ∧ hFn (primaryCtx ctx m) = .ok r := by
  unfold route
  rcases hp : execPatterns fqURL ctx.request router.routes with _ | ⟨hFn, m⟩
  · rw [routeCatch_handledResolved]
    simp
  · dsimp only
    rcases hh : hFn (primaryCtx ctx m) with e | r
    · rw [routeCatch_handledResolved]
      constructor
      · intro h; exact absurd h (by simp)
      · rintro ⟨hFn', m', r', hp', hok⟩
        have h1 : hFn' = hFn := (congrArg Prod.fst (Option.some.inj hp')).symm
        have h2 : m' = m := (congrArg Prod.snd (Option.some.inj hp')).symm
        subst h1; subst h2
        rw [hh] at hok
        exact Except.noConfusion hok
    · simp only [true_iff]
      exact ⟨hFn, m, r, rfl, hh⟩

/-- Claim **C8.**  Nested-router delegation: when the stored match has no capture
groups at all, `#routeHandler` throws a `TypeError` (and in particular never
invokes the sub-router — the result is the same for any sub-dispatcher);
when at least one capture group exists, the sub-router's dispatcher is
invoked on the absolute URL built from the last capture value against the
request's origin, forwarding the current context unchanged.  `use` stores
exactly this handler under the wildcard method. -/
theorem claim_C8_mount_delegation (H : Host)
    (sub sub' : String → Ctx → Except Thrown Response) (ctx : Ctx) :
    (groupValues ctx = [] →
      routeHandler H sub ctx = Except.error (Thrown.typeError
        "Pattern not suitable for nested routing. Did you forget to add a wildcard (*)?")
      ∧ routeHandler H sub ctx = routeHandler H sub' ctx)
    ∧ (∀ lastValue : String, (groupValues ctx).getLast? = some lastValue →
        routeHandler H sub ctx
          = sub (H.urlResolve lastValue (H.urlOrigin ctx.request.url)) ctx)
    ∧ (∀ (router subRouter : WorkerRouter) (path : String),
        (useRoute H router path subRouter).routes
          = router.routes
            ++ [⟨"ANY", H.toPattern path, routeHandler H (routeResult subRouter)⟩]) := by
  refine ⟨?_, ?_, ?_⟩
  · intro hempty
    unfold routeHandler
    rw [hempty]
    exact ⟨rfl, rfl⟩
  · intro lastValue hlast
    unfold routeHandler
    rw [hlast]
  · intro router subRouter path
    rfl

/-- Concrete fixture context carrying a match with no capture groups. -/
def cCtxNoGroups : Ctx :=
  { request := cRequest, matchR := some ⟨⟨"/item/3", []⟩⟩ }

/-- Witness for C8 at a context whose match has an empty groups object. -/
theorem claim_C8_mount_delegation_witness :
    groupValues cCtxNoGroups = []
    ∧ (routeHandler cHost (routeResult cRouterEmpty) cCtxNoGroups
        = Except.error (Thrown.typeError
          "Pattern not suitable for nested routing. Did you forget to add a wildcard (*)?")
      ∧ routeHandler cHost (routeResult cRouterEmpty) cCtxNoGroups
        = routeHandler cHost (routeResult cRouterRecoverOnly) cCtxNoGroups) :=
  ⟨rfl,
   (claim_C8_mount_delegation cHost (routeResult cRouterEmpty)
     (routeResult cRouterRecoverOnly) cCtxNoGroups).1 rfl⟩

/-- Witness instance for C7 (amended) on the throw-then-recover router. -/
theorem claim_C7_handled_resolved_iff_primary_success_witness :
    (route cRouterThrowRecover cURL cCtx).1.handledResolved = true ↔
      ∃ (hFn : CompiledHandler) (m : URLPatternResult) (r : Response),
        execPatterns cURL cCtx.request cRouterThrowRecover.routes = some (hFn, m)
        ∧ hFn (primaryCtx cCtx m) = .ok r :=
  claim_C7_handled_resolved_iff_primary_success cRouterThrowRecover cURL cCtx

theorem readObj_writeObj_ne (a b : Nat) (c : Ctx) (h : List Ctx)
    (hne : b ≠ a) : readObj b (writeObj a c h) = readObj b h := by
  unfold readObj writeObj
  rw [List.getD, List.getD, List.get?_eq_getElem?, List.get?_eq_getElem?,
    List.getElem?_set_ne (Ne.symm hne)]

theorem readObj_append_lt (b : Nat) (h h₂ : List Ctx) (hb : b < h.length) :
    readObj b (h ++ h₂) = readObj b h := by
  unfold readObj
  rw [List.getD, List.getD, List.get?_eq_getElem?, List.get?_eq_getElem?,
    List.getElem?_append_left hb]

/-- Claim **C9.**  Frame property of a dispatch: `handle` reads the caller-provided
base context object, allocates exactly one fresh per-dispatch object (the
shallow copy `{...ctx, request, waitUntil}`), and every in-place
`Object.assign` performed by the dispatcher (the match/effects augmentation
and the recovery augmentation) targets only that fresh object — so no object
that existed before the dispatch, in particular the caller-provided base
context and the objects of concurrent sibling dispatches, is ever mutated. -/
theorem claim_C9_dispatch_frame (router : WorkerRouter) (request : Request)
    (a : Nat) (h : List Ctx) (b : Nat) (hb : b < h.length) :
    readObj b (handle router request a h).2 = readObj b h
    ∧ (handle router request a h).2.length = h.length + 1 := by
  constructor
  · show readObj b (writeObj h.length
      (route router request.url (readObj h.length
        (h ++ [{ readObj a h with request := request }]))).2
      (h ++ [{ readObj a h with request := request }])) = readObj b h
    rw [readObj_writeObj_ne _ _ _ _ (Nat.ne_of_lt hb),
      readObj_append_lt _ _ _ hb]
  · show (writeObj h.length _ (h ++ [_])).length = h.length + 1
    unfold writeObj
    simp [List.length_set, List.length_append]

/-- Witness for C9: a one-object heap holding the caller context. -/
theorem claim_C9_dispatch_frame_witness :
    0 < [cCtx].length
    ∧ (readObj 0 (handle cRouterEmpty cRequest 0 [cCtx]).2 = readObj 0 [cCtx]
      ∧ (handle cRouterEmpty cRequest 0 [cCtx]).2.length = [cCtx].length + 1) :=
  ⟨by decide, claim_C9_dispatch_frame cRouterEmpty cRequest 0 [cCtx] 0 (by decide)⟩

/-- All entries of a table carry the wildcard method marker. -/
def allAnyMethods (rs : List Route) : Prop := ∀ r ∈ rs, r.method = "ANY"

theorem allAnyMethods_append_any (rs : List Route) (p : URLPattern)
    (hFn : CompiledHandler) (hall : allAnyMethods rs) :
    allAnyMethods (rs ++ [⟨"ANY", p, hFn⟩]) := by
  intro r hr
  rcases List.mem_append.mp hr with h | h
  · exact hall r h
  · simp only [List.mem_singleton] at h
    subst h; rfl

/-- Claim **C10.**  Every recovery registration (`recover`, `recoverExternal`, with
or without middleware) stores the wildcard method marker, and on a table of
wildcard-method entries resolution is independent of the request's method:
for every request the first entry whose pattern matches the URL is selected,
with no method filtering. -/
theorem claim_C10_recovery_never_filters_method (H : Host)
    (router : WorkerRouter) (path init : String) (mw : MwBase)
    (handler : HandlerFn)
    (hall : allAnyMethods router.recoverRoutes) :
    allAnyMethods (recover H router path handler).recoverRoutes
    ∧ allAnyMethods (recoverWith H router path mw handler).recoverRoutes
    ∧ allAnyMethods (recoverExternal H router init handler).recoverRoutes
    ∧ allAnyMethods (recoverExternalWith H router init mw handler).recoverRoutes
    ∧ (∀ (rs : List Route) (fqURL : String), allAnyMethods rs →
        ∀ (req req' : Request),
          execPatterns fqURL req rs = execPatterns fqURL req' rs)
    ∧ (∀ (r : Route) (rs : List Route) (fqURL : String) (req : Request),
        r.method = "ANY" →
        execPatterns fqURL req (r :: rs)
          = match r.pattern.exec fqURL with
            | some m => some (r.handler, m)
            | none => execPatterns fqURL req rs) := by
  refine ⟨allAnyMethods_append_any _ _ _ hall, allAnyMethods_append_any _ _ _ hall,
    allAnyMethods_append_any _ _ _ hall, allAnyMethods_append_any _ _ _ hall,
    ?_, ?_⟩
  · intro rs fqURL hall' req req'
    induction rs with
    | nil => rfl
    | cons r rs ih =>
      have hr0 : r.method = "ANY" := hall' r (by simp)
      have hall'' : allAnyMethods rs := fun x hx => hall' x (by simp [hx])
      have hskip : ∀ q : Request, codeSkip r q = false := by
        intro q; unfold codeSkip; rw [hr0]; simp
      rcases he : r.pattern.exec fqURL with _ | m
      · rw [execPatterns_cons_nomatch _ _ _ _ (hskip req) he,
          execPatterns_cons_nomatch _ _ _ _ (hskip req') he]
        exact ih hall''
      · rw [execPatterns_cons_match _ _ _ _ _ (hskip req) he,
          execPatterns_cons_match _ _ _ _ _ (hskip req') he]
  · intro r rs fqURL req hr0
    have hskip : codeSkip r req = false := by
      unfold codeSkip; rw [hr0]; simp
    rcases he : r.pattern.exec fqURL with _ | m
    · rw [execPatterns_cons_nomatch _ _ _ _ hskip he]
    · rw [execPatterns_cons_match _ _ _ _ _ hskip he]

/-- Witness for C10 on the recovery-only fixture router, projecting the
method-independence conjunct at two different request methods. -/
theorem claim_C10_recovery_never_filters_method_witness :
    allAnyMethods cRouterRecoverOnly.recoverRoutes
    ∧ allAnyMethods
        (recover cHost cRouterRecoverOnly "*" cOkHandlerFn).recoverRoutes
    ∧ execPatterns cURL ⟨cURL, "GET"⟩ cRouterRecoverOnly.recoverRoutes
        = execPatterns cURL ⟨cURL, "DELETE"⟩ cRouterRecoverOnly.recoverRoutes := by
  have hall : allAnyMethods cRouterRecoverOnly.recoverRoutes := by
    intro r hr
    simp only [cRouterRecoverOnly, List.mem_singleton] at hr
    subst hr; rfl
  have h := claim_C10_recovery_never_filters_method cHost cRouterRecoverOnly
    "*" "*" cMwId cOkHandlerFn hall
  exact ⟨hall, h.1, h.2.2.2.2.1 cRouterRecoverOnly.recoverRoutes cURL hall
    ⟨cURL, "GET"⟩ ⟨cURL, "DELETE"⟩⟩

/-- Concrete fixture handlers for distinct verbs. -/
def cGetHandler : CompiledHandler := fun _ => .ok ⟨200, "OK"⟩

def cPostHandler : CompiledHandler := fun _ => .ok ⟨201, "Created"⟩

/-- Concrete fixture table: a POST catch-all before a GET catch-all. -/
def cRoutesGP : List Route :=
  [⟨"POST", anyPattern, cPostHandler⟩, ⟨"GET", anyPattern, cGetHandler⟩]

/-- Witness for C1 on the two-entry fixture table (uppercase methods). -/
theorem claim_C1_first_match_resolution_witness :
    (∀ r ∈ cRoutesGP, jsToUpper r.method = r.method)
    ∧ ((execPatterns cURL cRequest cRoutesGP = none ↔
         ∀ r ∈ cRoutesGP, ¬ fires cURL cRequest r)
      ∧ (∀ (hFn : CompiledHandler) (m : URLPatternResult),
          execPatterns cURL cRequest cRoutesGP = some (hFn, m) ↔
            ∃ (i : Nat) (r' : Route), cRoutesGP[i]? = some r' ∧
              methodAccepts r' cRequest ∧ r'.pattern.exec cURL = some m ∧
              hFn = r'.handler ∧
              ∀ (j : Nat) (rj : Route), j < i → cRoutesGP[j]? = some rj →
                ¬ fires cURL cRequest rj)
      ∧ (∀ (t s u : List Route) (r r' : Route), r'.method = r.method →
          r'.pattern = r.pattern →
          execPatterns cURL cRequest (t ++ r :: (s ++ r' :: u)) =
            execPatterns cURL cRequest (t ++ r :: (s ++ u)))) := by
  have hup : ∀ r ∈ cRoutesGP, jsToUpper r.method = r.method := by
    intro r hr
    rcases List.mem_cons.mp hr with h | h
    · subst h; rfl
    · rcases List.mem_cons.mp h with h2 | h2
      · subst h2; rfl
      · exact absurd h2 (List.not_mem_nil r)
  exact ⟨hup, claim_C1_first_match_resolution cURL cRequest cRoutesGP hup⟩
